import Mathlib

/-!
Shallow embedding of the property-scraper core of the bidoptimizer
repository (src/src/lib/property-scraper.ts, first version, lines 1 to 575,
together with src/src/lib/scraper-types.ts and the orchestrator
scrapeProperty), and proofs settling the frozen claims about it.

Modelling conventions:
* TypeScript strings are Lean String / List Char; the JavaScript regular
  expressions the scraper runs are implemented as dedicated scanning
  functions with the same matching semantics (the pattern is quoted in a
  comment at each site).
* JSON.parse is modelled by jsonParse, a fuel-based recursive-descent
  parser of the JSON grammar; JavaScript numbers are modelled by Rat
  (exact arithmetic; double rounding is not modelled, and NaN is modelled
  as 0 -- no claim depends on either).
* JavaScript runtime values in untyped positions are modelled by the Json
  type; truthiness, the logical-or operator on values and property access
  are modelled by jsTruthy, jsOrO / jsOrD and Json.getF.
* Operations that can throw a TypeError (toLowerCase or includes applied
  to a non-string value) are modelled with Except; the try/catch blocks of
  the source map a thrown error to a null result, modelled as none.
* new Date().toISOString() is modelled by an explicit parameter now, and
  the fetch call by an oracle parameter giving each attempt a response.
-/

set_option maxRecDepth 100000

namespace Scraper

/-- Characters matched by the JavaScript \s class (ASCII subset; the
scraper only meets ASCII whitespace, \f and \v never occur in its inputs). -/
def isWsChar (c : Char) : Bool :=
  c == ' ' || c == '\t' || c == '\n' || c == '\r'

def skipWsL : List Char → List Char
  | [] => []
  | c :: rest => if isWsChar c then skipWsL rest else c :: rest

/-- The first list is a prefix of the second, comparing characters exactly. -/
def isPrefixCL : List Char → List Char → Bool
  | [], _ => true
  | _ :: _, [] => false
  | a :: as, b :: bs => a == b && isPrefixCL as bs

/-- The first list (given in lower case) is a prefix of the second up to
ASCII case, modelling a case-insensitive regex literal. -/
def ciPrefixL : List Char → List Char → Bool
  | [], _ => true
  | _ :: _, [] => false
  | a :: as, b :: bs => a == b.toLower && ciPrefixL as bs

/-- The first list occurs inside the second (exact comparison), modelling
String.includes. -/
def containsCL (needle : List Char) : List Char → Bool
  | [] => needle.isEmpty
  | c :: rest => isPrefixCL needle (c :: rest) || containsCL needle rest

/-- Case-insensitive occurrence (needle given in lower case). -/
def ciContainsL (needle : List Char) : List Char → Bool
  | [] => needle.isEmpty
  | c :: rest => ciPrefixL needle (c :: rest) || ciContainsL needle rest

/-- Split at the first occurrence of a character: (before, after). -/
def splitAtCharL (ch : Char) : List Char → Option (List Char × List Char)
  | [] => none
  | c :: rest =>
    if c == ch then some ([], rest)
    else
      match splitAtCharL ch rest with
      | some (pre, post) => some (c :: pre, post)
      | none => none

/-- Split at the first case-insensitive occurrence of pat (given in lower
case): (before, after-the-occurrence). -/
def ciSplitFirstL (pat : List Char) : List Char → Option (List Char × List Char)
  | [] => if pat.isEmpty then some ([], []) else none
  | c :: rest =>
    if ciPrefixL pat (c :: rest) then some ([], List.drop pat.length (c :: rest))
    else
      match ciSplitFirstL pat rest with
      | some (pre, post) => some (c :: pre, post)
      | none => none

/-- JavaScript String.prototype.trim on a character list. -/
def trimL (cs : List Char) : List Char :=
  ((skipWsL ((skipWsL cs).reverse)).reverse)

def digitsToNatL (cs : List Char) : Nat :=
  cs.foldl (fun n c => n * 10 + (c.toNat - 48)) 0

def strOfL (cs : List Char) : String := String.mk cs

def joinWithL (sep : String) : List String → String
  | [] => ""
  | [s] => s
  | s :: rest => s ++ sep ++ joinWithL sep rest

/-- The value domain of JSON.parse results and of untyped JavaScript
values flowing through the scraper. -/
inductive Json where
  | null
  | bool (b : Bool)
  | num (q : Rat)
  | str (s : String)
  | arr (elems : List Json)
  | obj (fields : List (String × Json))

def lookupFieldL : List (String × Json) → String → Option Json
  | [], _ => none
  | (k, v) :: rest, key => if k == key then some v else lookupFieldL rest key

/-- JavaScript property access with a string key: a named key on a
non-object value (including arrays, whose named properties the scraper
never reads) yields undefined, modelled none. -/
def Json.getF : Json → String → Option Json
  | .obj fs, k => lookupFieldL fs k
  | _, _ => none

/-- JavaScript truthiness of a value. -/
def jsTruthy : Json → Bool
  | .null => false
  | .bool b => b
  | .num q => !(decide (q = 0))
  | .str s => !s.data.isEmpty
  | .arr _ => true
  | .obj _ => true

/-- Truthiness of a possibly-undefined value (undefined modelled none). -/
def jsTruthyO : Option Json → Bool
  | none => false
  | some v => jsTruthy v

/-- a || b on JavaScript values, where either side may be undefined. -/
def jsOrO (a b : Option Json) : Option Json :=
  if jsTruthyO a then a else b

/-- a || d with a literal default: the JavaScript value-or-default idiom. -/
def jsOrD (a : Option Json) (d : Json) : Json :=
  match a with
  | some v => if jsTruthy v then v else d
  | none => d

/-- Rational value of decimal digit lists int.frac. -/
def ratOfDigits (intPart fracPart : List Char) : Rat :=
  if fracPart.isEmpty then (digitsToNatL intPart : Rat)
  else (digitsToNatL intPart : Rat) + (digitsToNatL fracPart : Rat) / ((10 : Rat) ^ fracPart.length)

/-- parseFloat applied to a maximal [0-9.] run: leading integer digits, an
optional dot with following digits; a second dot stops the parse. A run on
which the parse finds no digit (such as ".") gives NaN in JavaScript; NaN
is modelled as 0 (no claim distinguishes them). -/
def parseFloatRun (cs : List Char) : Rat :=
  let intPart := cs.takeWhile Char.isDigit
  let rest := cs.drop intPart.length
  match rest with
  | '.' :: r =>
    let fracPart := r.takeWhile Char.isDigit
    if intPart.isEmpty && fracPart.isEmpty then 0
    else ratOfDigits intPart fracPart
  | _ => if intPart.isEmpty then 0 else (digitsToNatL intPart : Rat)

/-- First maximal run of [0-9.] characters, as matched by /[\d.]+/. -/
def firstNumRun : List Char → Option (List Char)
  | [] => none
  | c :: rest =>
    if c.isDigit || c == '.' then
      some ((c :: rest).takeWhile (fun x => x.isDigit || x == '.'))
    else firstNumRun rest

def hexVal (c : Char) : Option Nat :=
  if c.isDigit then some (c.toNat - 48)
  else if 'a' ≤ c && c ≤ 'f' then some (c.toNat - 87)
  else if 'A' ≤ c && c ≤ 'F' then some (c.toNat - 55)
  else none

/-- JSON string body after the opening quote: (content, rest after the
closing quote). Standard escapes; an unescaped control character or a bad
escape fails, as JSON.parse rejects them. Surrogate pairing of \u escapes
is not modelled (no input of the development uses \u). -/
def parseJStr : Nat → List Char → Option (List Char × List Char)
  | 0, _ => none
  | Nat.succ f, cs =>
    match cs with
    | [] => none
    | '"' :: rest => some ([], rest)
    | '\\' :: rest =>
      match rest with
      | 'u' :: a :: b :: c :: d :: rest2 =>
        match hexVal a, hexVal b, hexVal c, hexVal d with
        | some ha, some hb, some hc, some hd =>
          let code := ((ha * 16 + hb) * 16 + hc) * 16 + hd
          match parseJStr f rest2 with
          | some (s, r) => some (Char.ofNat code :: s, r)
          | none => none
        | _, _, _, _ => none
      | e :: rest2 =>
        let dec : Option Char :=
          if e == '"' then some '"'
          else if e == '\\' then some '\\'
          else if e == '/' then some '/'
          else if e == 'b' then some (Char.ofNat 8)
          else if e == 'f' then some (Char.ofNat 12)
          else if e == 'n' then some '\n'
          else if e == 'r' then some '\r'
          else if e == 't' then some '\t'
          else none
        match dec with
        | some ch =>
          match parseJStr f rest2 with
          | some (s, r) => some (ch :: s, r)
          | none => none
        | none => none
      | [] => none
    | c :: rest =>
      if c.toNat < 32 then none
      else
        match parseJStr f rest with
        | some (s, r) => some (c :: s, r)
        | none => none

/-- Exponent suffix and assembly of a JSON number literal. -/
def parseJNumExp (neg : Bool) (intPart fracPart : List Char) (cs : List Char) :
    Option (Rat × List Char) :=
  let base : Rat := ratOfDigits intPart fracPart
  let v := if neg then -base else base
  match cs with
  | e :: r =>
    if e == 'e' || e == 'E' then
      let eneg := r.head? == some '-'
      let r1 := if r.head? == some '-' || r.head? == some '+' then r.drop 1 else r
      let eDigits := r1.takeWhile Char.isDigit
      if eDigits.isEmpty then none
      else
        let ex := digitsToNatL eDigits
        let scaled := if eneg then v / ((10 : Rat) ^ ex) else v * ((10 : Rat) ^ ex)
        some (scaled, r1.drop eDigits.length)
    else some (v, cs)
  | [] => some (v, [])

/-- JSON number literal at the head of the input. -/
def parseJNum (cs : List Char) : Option (Rat × List Char) :=
  let neg := cs.head? == some '-'
  let cs1 := if neg then cs.drop 1 else cs
  let intPart := cs1.takeWhile Char.isDigit
  if intPart.isEmpty then none
  else if intPart.length > 1 && intPart.head? == some '0' then none
  else
    let rest1 := cs1.drop intPart.length
    match rest1 with
    | '.' :: r =>
      let fracPart := r.takeWhile Char.isDigit
      if fracPart.isEmpty then none
      else parseJNumExp neg intPart fracPart (r.drop fracPart.length)
    | _ => parseJNumExp neg intPart [] rest1

/-- Overwrite-or-append of one object field, keeping first-insertion
position, as JavaScript object construction does on duplicate keys. -/
def setFieldL : List (String × Json) → String → Json → List (String × Json)
  | [], k, v => [(k, v)]
  | (k0, v0) :: rest, k, v =>
    if k0 == k then (k0, v) :: rest else (k0, v0) :: setFieldL rest k v

/-- Collapse duplicate keys the way JSON.parse builds an object: later
occurrences overwrite, position of the first occurrence is kept. -/
def dedupFields (fs : List (String × Json)) : List (String × Json) :=
  fs.foldl (fun acc kv => setFieldL acc kv.1 kv.2) []

/-- Items of a JSON array after the opening bracket and leading
whitespace, when the array is non-empty; pv parses one value. -/
def parseArrItems (pv : List Char → Option (Json × List Char)) :
    Nat → List Char → Option (List Json × List Char)
  | 0, _ => none
  | Nat.succ f, cs =>
    match pv cs with
    | none => none
    | some (v, rest) =>
      match skipWsL rest with
      | ',' :: r2 =>
        match parseArrItems pv f (skipWsL r2) with
        | some (vs, r3) => some (v :: vs, r3)
        | none => none
      | ']' :: r2 => some ([v], r2)
      | _ => none

/-- Members of a JSON object after the opening brace and leading
whitespace, when the object is non-empty. -/
def parseObjItems (pv : List Char → Option (Json × List Char)) :
    Nat → List Char → Option (List (String × Json) × List Char)
  | 0, _ => none
  | Nat.succ f, cs =>
    match cs with
    | '"' :: r =>
      match parseJStr (r.length + 1) r with
      | some (key, r1) =>
        match skipWsL r1 with
        | ':' :: r2 =>
          match pv (skipWsL r2) with
          | some (v, r3) =>
            match skipWsL r3 with
            | ',' :: r4 =>
              match parseObjItems pv f (skipWsL r4) with
              | some (fs, r5) => some ((strOfL key, v) :: fs, r5)
              | none => none
            | '}' :: r4 => some ([(strOfL key, v)], r4)
            | _ => none
          | none => none
        | _ => none
      | none => none
    | _ => none

/-- One JSON value at the head of the input (leading whitespace already
consumed); fuel bounds the nesting depth. -/
def parseValue : Nat → List Char → Option (Json × List Char)
  | 0, _ => none
  | Nat.succ f, cs =>
    if isPrefixCL ("true".data) cs then some (.bool true, cs.drop 4)
    else if isPrefixCL ("false".data) cs then some (.bool false, cs.drop 5)
    else if isPrefixCL ("null".data) cs then some (.null, cs.drop 4)
    else
      match cs with
      | '"' :: r =>
        match parseJStr (r.length + 1) r with
        | some (s, rest) => some (.str (strOfL s), rest)
        | none => none
      | '[' :: r =>
        match skipWsL r with
        | ']' :: rest => some (.arr [], rest)
        | r1 =>
          match parseArrItems (fun cs2 => parseValue f (skipWsL cs2)) (r1.length + 1) r1 with
          | some (vs, rest) => some (.arr vs, rest)
          | none => none
      | '{' :: r =>
        match skipWsL r with
        | '}' :: rest => some (.obj [], rest)
        | r1 =>
          match parseObjItems (fun cs2 => parseValue f cs2) (r1.length + 1) r1 with
          | some (fs, rest) => some (.obj (dedupFields fs), rest)
          | none => none
      | _ =>
        match parseJNum cs with
        | some (q, rest) => some (.num q, rest)
        | none => none

/-- JSON.parse: whole-input parse of one JSON document; a syntax error
(modelled none) is what the source catches per strategy. -/
def jsonParse (s : String) : Option Json :=
  let cs := skipWsL s.data
  match parseValue (cs.length + 1) cs with
  | some (v, rest) => if (skipWsL rest).isEmpty then some v else none
  | none => none

/-- String conversion of a JavaScript value (the String() coercion used
implicitly by Array.prototype.join and String(x) in parsePrice and
extractNumber). Fuel is sizeOf, which bounds the tree depth. Non-integer
number formatting falls back to the Rat representation (never reached by
a claim; JavaScript float printing is not modelled). -/
def jsToStringF : Nat → Json → String
  | 0, _ => ""
  | Nat.succ f, j =>
    match j with
    | .null => "null"
    | .bool b => if b then "true" else "false"
    | .num q => if q.den == 1 then toString q.num else toString q
    | .str s => s
    | .arr xs =>
      joinWithL "," (xs.map (fun x =>
        match x with
        | .null => ""
        | _ => jsToStringF f x))
    | .obj _ => "[object Object]"

/-- Fuel bound for recursion over Json trees: far beyond the depth of any
value the pipeline can construct from a fetched document (each nesting
level of a parsed document consumes at least one input character). -/
def jsFuel : Nat := 1000000

def jsToString (j : Json) : String := jsToStringF jsFuel j

/-! ## Data model (src/src/lib/scraper-types.ts) -/

inductive Source where
  | zillow
  | redfin
deriving DecidableEq

inductive PropertyType where
  | singleFamily
  | condo
  | townhouse
  | multiFamily
  | other
deriving DecidableEq

/-- ScrapedPropertyData (scraper-types.ts lines 8 to 37). The address
field is typed string in TypeScript but the untyped extraction code can
assign it any runtime value, so it is modelled as Json; string-valued
addresses appear as Json.str. Optional fields are Option (none =
undefined / absent). -/
structure ScrapedPropertyData where
  address : Json
  listPrice : Rat
  daysOnMarket : Rat
  bedrooms : Rat
  bathrooms : Rat
  propertyType : PropertyType
  squareFeet : Option Rat
  yearBuilt : Option Rat
  priceReduced : Bool
  originalPrice : Option Rat
  estimatedValue : Option Rat
  source : Source
  sourceUrl : String
  scrapedAt : String

/-- Partial ScrapedPropertyData as produced by the extractor strategies
before completion: every field optional. -/
structure PartialScraped where
  address : Option Json := none
  listPrice : Option Rat := none
  daysOnMarket : Option Rat := none
  bedrooms : Option Rat := none
  bathrooms : Option Rat := none
  propertyType : Option PropertyType := none
  squareFeet : Option Rat := none
  yearBuilt : Option Rat := none
  priceReduced : Option Bool := none
  originalPrice : Option Rat := none
  estimatedValue : Option Rat := none

/-! ## Utility functions of the scraper (property-scraper.ts lines 16 to 101) -/

/-- detectSource (lines 19 to 24): url.toLowerCase(), then a substring
test for each domain, zillow.com checked first. -/
def detectSource (url : String) : Option Source :=
  let lowerUrl := url.data.map Char.toLower
  if containsCL ("zillow.com".data) lowerUrl then some .zillow
  else if containsCL ("redfin.com".data) lowerUrl then some .redfin
  else none

/-- parsePrice (lines 29 to 34) on a string argument: strip every
character but [0-9.] (the replace), then parseInt (leading digits; NaN
when there is none) with || 0 turning NaN into 0. -/
def parsePriceStr (s : String) : Rat :=
  let cleaned := s.data.filter (fun c => c.isDigit || c == '.')
  let digits := cleaned.takeWhile Char.isDigit
  if digits.isEmpty then 0 else (digitsToNatL digits : Rat)

/-- parsePrice on the runtime value of its string|number|undefined|null
argument: a number is returned unchanged; a falsy value yields 0;
anything else goes through String(value) and the string path. -/
def parsePriceJ : Option Json → Rat
  | some (.num q) => q
  | none => 0
  | some v => if jsTruthy v then parsePriceStr (jsToString v) else 0

/-- normalizePropertyType (lines 39 to 58) on a string argument:
toLowerCase, then the keyword chain of the source in order, first match
winning. -/
def normalizePropertyTypeStr (s : String) : PropertyType :=
  let lower := s.data.map Char.toLower
  if containsCL ("single".data) lower || containsCL ("house".data) lower
      || containsCL ("detached".data) lower then
    .singleFamily
  else if containsCL ("condo".data) lower || containsCL ("apartment".data) lower then
    .condo
  else if containsCL ("town".data) lower || containsCL ("row".data) lower then
    .townhouse
  else if containsCL ("multi".data) lower || containsCL ("duplex".data) lower
      || containsCL ("triplex".data) lower then
    .multiFamily
  else .other

/-- normalizePropertyType on the runtime value reaching it: a falsy value
returns other (the !typeStr guard); a truthy string is classified;
toLowerCase on a truthy non-string throws a TypeError, modelled as
Except.error, which the calling strategy catches. -/
def normTypeJ : Option Json → Except Unit PropertyType
  | none => .ok .other
  | some j =>
    if jsTruthy j then
      match j with
      | .str s => .ok (normalizePropertyTypeStr s)
      | _ => .error ()
    else .ok .other

/-- extractNumber (lines 63 to 67) on a string: the first /[\d.]+/ match
through parseFloat, 0 when there is no match. -/
def extractNumberStr (s : String) : Rat :=
  match firstNumRun s.data with
  | some run => parseFloatRun run
  | none => 0

/-- extractNumber on the runtime value: the !str guard maps falsy to 0,
then String(str) and the string path. -/
def extractNumberJ : Option Json → Rat
  | none => 0
  | some v => if jsTruthy v then extractNumberStr (jsToString v) else 0

/-- The value-or-default idiom x || d on numeric record fields. -/
def numOrD (x : Option Rat) (d : Rat) : Rat :=
  match x with
  | some q => if q = 0 then d else q
  | none => d

/-- x || false on a boolean field. -/
def boolOrFalse (x : Option Bool) : Bool :=
  match x with
  | some b => b
  | none => false

/-- completePropertyData (lines 72 to 93): defaults for absent fields,
and the stamping of source, sourceUrl and scrapedAt, which strategies
never set themselves. -/
def completePropertyData (p : PartialScraped) (source : Source) (url now : String) :
    ScrapedPropertyData :=
  { address := jsOrD p.address (.str "Unknown Address")
    listPrice := numOrD p.listPrice 0
    daysOnMarket := numOrD p.daysOnMarket 0
    bedrooms := numOrD p.bedrooms 0
    bathrooms := numOrD p.bathrooms 0
    propertyType :=
      match p.propertyType with
      | some t => t
      | none => .other
    squareFeet := p.squareFeet
    yearBuilt := p.yearBuilt
    priceReduced := boolOrFalse p.priceReduced
    originalPrice := p.originalPrice
    estimatedValue := p.estimatedValue
    source := source
    sourceUrl := url
    scrapedAt := now }

/-- hasRequiredData (lines 98 to 101): Boolean(partial.address ||
partial.listPrice). -/
def hasRequiredData (p : PartialScraped) : Bool :=
  jsTruthyO p.address ||
    (match p.listPrice with
     | some q => !(decide (q = 0))
     | none => false)

/-- The guarded completion the source repeats at each gated strategy:
if (propertyData && hasRequiredData(propertyData)) return
completePropertyData(propertyData, source, url); else fall through. -/
def gatedComplete (p? : Option PartialScraped) (source : Source) (url now : String) :
    Option ScrapedPropertyData :=
  match p? with
  | some p => if hasRequiredData p then some (completePropertyData p source url now) else none
  | none => none

/-! ## Scanners implementing the regular expressions of the scraper

Each scanner implements one concrete pattern of the source with
JavaScript matching semantics: leftmost starting position wins, a failed
attempt advances one character, a g flag resumes after the previous full
match. Case-insensitive literals are supplied in lower case. -/

/-- Attempt at the head of the input for
<script[^>]*KEY[^>]*>([\s\S]*?)<\/script> (with the i flag): after the
literal <script, the characters up to the first > must contain KEY (the
[^>]* runs cannot cross a >), and the lazy body runs to the first
following <\/script>. Returns (capture, rest after the full match). -/
def scriptAttempt (key : List Char) (cs : List Char) : Option (List Char × List Char) :=
  if ciPrefixL ("<script".data) cs then
    match splitAtCharL '>' (cs.drop 7) with
    | some (tagBody, afterGt) =>
      if ciContainsL key tagBody then
        match ciSplitFirstL ("</script>".data) afterGt with
        | some (content, rest) => some (content, rest)
        | none => none
      else none
    | none => none
  else none

/-- All matches (g flag), resuming after each full match. -/
def scriptBlocks (key : List Char) : Nat → List Char → List (List Char)
  | 0, _ => []
  | Nat.succ _, [] => []
  | Nat.succ f, c :: rest =>
    match scriptAttempt key (c :: rest) with
    | some (content, restAfter) => content :: scriptBlocks key f restAfter
    | none => scriptBlocks key f rest

/-- First match only (no g flag). -/
def firstScriptBlock (key : List Char) : Nat → List Char → Option (List Char)
  | 0, _ => none
  | Nat.succ _, [] => none
  | Nat.succ f, c :: rest =>
    match scriptAttempt key (c :: rest) with
    | some (content, _) => some content
    | none => firstScriptBlock key f rest

/-- The replace(/<script[^>]*>|<\/script>/gi, ...) pass on a JSON-LD full
match: one left-to-right scan removing matches of either alternative, the
opening-tag alternative tried first at each position. -/
def stripScriptTags : Nat → List Char → List Char
  | 0, cs => cs
  | Nat.succ _, [] => []
  | Nat.succ f, c :: rest =>
    if ciPrefixL ("<script".data) (c :: rest) then
      match splitAtCharL '>' ((c :: rest).drop 7) with
      | some (_, afterGt) => stripScriptTags f afterGt
      | none => c :: stripScriptTags f rest
    else if ciPrefixL ("</script>".data) (c :: rest) then
      stripScriptTags f ((c :: rest).drop 9)
    else c :: stripScriptTags f rest

/-- Generic leftmost-match search: try the attempt at each position. -/
def searchOpt {α : Type} (attempt : List Char → Option α) : Nat → List Char → Option α
  | 0, _ => none
  | Nat.succ _, [] => attempt []
  | Nat.succ f, c :: rest =>
    match attempt (c :: rest) with
    | some r => some r
    | none => searchOpt attempt f rest

/-- Suffix ;?\s*(?:<\/script>|window\.) after the apollo capture. The ;?
is greedy; when a ; is present only the consumed path can succeed, since
the following literals start with a non-semicolon. -/
def apolloSuffixOk (cs : List Char) : Bool :=
  let cs1 :=
    match cs with
    | ';' :: r => r
    | _ => cs
  let r := skipWsL cs1
  ciPrefixL ("</script>".data) r || ciPrefixL ("window.".data) r

/-- Lazy expansion of ({[\s\S]*?}) followed by a suffix check: the body
grows from empty, so the capture ends at the first closing brace whose
suffix passes. The input starts at the opening brace, which is part of
the capture. -/
def lazyBraceCapture (suffixOk : List Char → Bool) :
    Nat → List Char → List Char → Option (List Char)
  | 0, _, _ => none
  | Nat.succ _, _, [] => none
  | Nat.succ f, acc, c :: rest =>
    if c == '}' && suffixOk rest then some ((c :: acc).reverse)
    else lazyBraceCapture suffixOk f (c :: acc) rest

/-- Attempt for window\.__APOLLO_STATE__\s*=\s*({[\s\S]*?});?\s*(?:<\/script>|window\.)
(i flag), returning the capture. -/
def apolloAttempt (cs : List Char) : Option (List Char) :=
  let pat := "window.__apollo_state__".data
  if ciPrefixL pat cs then
    match skipWsL (cs.drop pat.length) with
    | '=' :: r2 =>
      match skipWsL r2 with
      | '{' :: r3 => lazyBraceCapture apolloSuffixOk (('{' :: r3).length + 1) [] ('{' :: r3)
      | _ => none
    | _ => none
  else none

def apolloCapture (html : String) : Option String :=
  (searchOpt apolloAttempt (html.data.length + 1) html.data).map strOfL

/-- Suffix \s*[,;] after an inline-assignment capture. -/
def inlineSuffixOk (cs : List Char) : Bool :=
  match skipWsL cs with
  | ',' :: _ => true
  | ';' :: _ => true
  | _ => false

/-- Attempt for (?:K1|K2|K3)\s*[=:]\s*({[\s\S]*?})\s*[,;] (i flag). The
keyword alternatives of both call sites have pairwise distinct first
letters, so at most one can match at a position and no alternation
backtracking arises. -/
def inlineAttempt (keys : List (List Char)) (cs : List Char) : Option (List Char) :=
  match keys.find? (fun k => ciPrefixL k cs) with
  | some k =>
    match skipWsL (cs.drop k.length) with
    | c :: r2 =>
      if c == '=' || c == ':' then
        match skipWsL r2 with
        | '{' :: r3 => lazyBraceCapture inlineSuffixOk (('{' :: r3).length + 1) [] ('{' :: r3)
        | _ => none
      else none
    | [] => none
  | none => none

/-- Strategy-4 capture for Zillow: (?:zpid|propertyData|listingData). -/
def zillowInlineCapture (html : String) : Option String :=
  (searchOpt (inlineAttempt ["zpid".data, "propertydata".data, "listingdata".data])
    (html.data.length + 1) html.data).map strOfL

/-- Strategy-3 capture for Redfin: (?:initialData|propertyData|listingData). -/
def redfinInlineCapture (html : String) : Option String :=
  (searchOpt (inlineAttempt ["initialdata".data, "propertydata".data, "listingdata".data])
    (html.data.length + 1) html.data).map strOfL

/-- Suffix ;?\s*<\/script> after the Redfin server-state capture. -/
def serverStateSuffixOk (cs : List Char) : Bool :=
  let cs1 :=
    match cs with
    | ';' :: r => r
    | _ => cs
  ciPrefixL ("</script>".data) (skipWsL cs1)

/-- Attempt for window\.__reactServerState\s*=\s*({[\s\S]*?});?\s*<\/script> (i flag). -/
def serverStateAttempt (cs : List Char) : Option (List Char) :=
  let pat := "window.__reactserverstate".data
  if ciPrefixL pat cs then
    match skipWsL (cs.drop pat.length) with
    | '=' :: r2 =>
      match skipWsL r2 with
      | '{' :: r3 => lazyBraceCapture serverStateSuffixOk (('{' :: r3).length + 1) [] ('{' :: r3)
      | _ => none
    | _ => none
  else none

def serverStateCapture (html : String) : Option String :=
  (searchOpt serverStateAttempt (html.data.length + 1) html.data).map strOfL

/-- Attempt for \$[\d,]+(?:\.\d{2})?: dollar sign, at least one digit or
comma, optionally a dot with exactly two digits. Returns the full match. -/
def priceRunAttempt (cs : List Char) : Option (List Char) :=
  match cs with
  | '$' :: r =>
    let run := r.takeWhile (fun c => c.isDigit || c == ',')
    if run.isEmpty then none
    else
      let rest := r.drop run.length
      match rest with
      | '.' :: d1 :: d2 :: _ =>
        if d1.isDigit && d2.isDigit then some ('$' :: run ++ ['.', d1, d2])
        else some ('$' :: run)
      | _ => some ('$' :: run)
  | _ => none

def priceMatchL (html : List Char) : Option (List Char) :=
  searchOpt priceRunAttempt (html.length + 1) html

/-- Attempt for <title[^>]*>([^<]+)< (i flag): the capture must be
non-empty and must be followed by a further <. -/
def titleAttempt (cs : List Char) : Option (List Char) :=
  if ciPrefixL ("<title".data) cs then
    match splitAtCharL '>' (cs.drop 6) with
    | some (_, afterGt) =>
      let content := afterGt.takeWhile (fun c => !(c == '<'))
      if content.isEmpty then none
      else if (afterGt.drop content.length).isEmpty then none
      else some content
    | none => none
  else none

def titleMatchL (html : List Char) : Option (List Char) :=
  searchOpt titleAttempt (html.length + 1) html

/-- Attempt for (\d+)\s*KW with KW an alternation of literals starting
with letters: returns the captured digit run. -/
def numKwAttempt (kws : List (List Char)) (cs : List Char) : Option (List Char) :=
  match cs with
  | c :: _ =>
    if c.isDigit then
      let run := cs.takeWhile Char.isDigit
      let rest := skipWsL (cs.drop run.length)
      if kws.any (fun k => ciPrefixL k rest) then some run else none
    else none
  | [] => none

/-- Attempt for (\d+(?:\.\d+)?)\s*KW: the capture may carry a fraction.
The greedy optional fraction cannot hurt: the keywords start with
letters, which can follow neither a bare dot nor a digit run that the
fraction would have consumed. -/
def decKwAttempt (kws : List (List Char)) (cs : List Char) : Option (List Char) :=
  match cs with
  | c :: _ =>
    if c.isDigit then
      let ip := cs.takeWhile Char.isDigit
      let rest1 := cs.drop ip.length
      let runRest :=
        match rest1 with
        | '.' :: r =>
          let fp := r.takeWhile Char.isDigit
          if fp.isEmpty then (ip, rest1) else (ip ++ '.' :: fp, r.drop fp.length)
        | _ => (ip, rest1)
      if kws.any (fun k => ciPrefixL k (skipWsL runRest.2)) then some runRest.1 else none
    else none
  | [] => none

/-- Attempt for (\d+)\s*days?\s*(?:on\s*)?KW: the optional s and the
optional on-with-whitespace are greedy with the one backtracking step the
engine would take (keyword checked with and without the on). -/
def domAttempt (kws : List (List Char)) (cs : List Char) : Option (List Char) :=
  match cs with
  | c :: _ =>
    if c.isDigit then
      let run := cs.takeWhile Char.isDigit
      let r1 := skipWsL (cs.drop run.length)
      if ciPrefixL ("day".data) r1 then
        let r2 := r1.drop 3
        let r3 := if ciPrefixL ("s".data) r2 then r2.drop 1 else r2
        let r4 := skipWsL r3
        let kwAt := fun (l : List Char) => kws.any (fun k => ciPrefixL k l)
        if ciPrefixL ("on".data) r4 then
          if kwAt (skipWsL (r4.drop 2)) then some run
          else if kwAt r4 then some run
          else none
        else if kwAt r4 then some run
        else none
      else none
    else none
  | [] => none

/-- The sqft keyword alternation sq\.?\s*ft|sqft|square\s*feet (i flag). -/
def sqftKw (r1 : List Char) : Bool :=
  (if ciPrefixL ("sq".data) r1 then
     let r2 := r1.drop 2
     let r3 :=
       match r2 with
       | '.' :: r => r
       | _ => r2
     ciPrefixL ("ft".data) (skipWsL r3)
   else false)
  || ciPrefixL ("sqft".data) r1
  || (if ciPrefixL ("square".data) r1 then ciPrefixL ("feet".data) (skipWsL (r1.drop 6))
      else false)

/-- Attempt for ([\d,]+)\s*(?:sq\.?\s*ft|sqft|square\s*feet): the digit
and comma run captured. -/
def sqftAttempt (cs : List Char) : Option (List Char) :=
  match cs with
  | c :: _ =>
    if c.isDigit || c == ',' then
      let run := cs.takeWhile (fun x => x.isDigit || x == ',')
      if sqftKw (skipWsL (cs.drop run.length)) then some run else none
    else none
  | [] => none

/-! ## Zillow scraper (property-scraper.ts lines 107 to 325) -/

/-- Property access on a possibly undefined base, modelling both x?.k and
x.k where the code has checked x (a named key on undefined inside the
model only arises where the source would have produced undefined too,
since every unguarded base object in the source is non-null at that
point or its access is caught). -/
def optGet (o : Option Json) (k : String) : Option Json :=
  match o with
  | some j => j.getF k
  | none => none

/-- The JSON-LD address assembly both sites share (lines 178 to 184 and
396 to 402): (data.address || an empty object), its four components,
filter(Boolean), join with a comma and space (join stringifies the kept
values). -/
def jsonLdAddress (d : Json) : String :=
  let address := jsOrD (d.getF "address") (.obj [])
  let comps := [address.getF "streetAddress", address.getF "addressLocality",
                address.getF "addressRegion", address.getF "postalCode"]
  joinWithL ", " (((comps.filterMap id).filter jsTruthy).map jsToString)

/-- The strict-equality test data[atType] === literal of the strategy-1
type dispatch. -/
def isTypeStr (d : Json) (t : String) : Bool :=
  match d.getF "@type" with
  | some (.str s) => s == t
  | _ => false

/-- parseZillowJsonLd (lines 176 to 203). Its try/catch can only fire
through normalizePropertyType, whose argument here is the checked type
string, so the none branch is unreachable from parseZillowHtml; it is
kept for standalone faithfulness. -/
def parseZillowJsonLd (d : Json) (url now : String) : Option ScrapedPropertyData :=
  match normTypeJ (d.getF "@type") with
  | .error _ => none
  | .ok t =>
    let fullAddress := jsonLdAddress d
    some
      { address := .str (if fullAddress.data.isEmpty then "Unknown Address" else fullAddress)
        listPrice := parsePriceJ (jsOrO (optGet (d.getF "offers") "price") (d.getF "price"))
        daysOnMarket := 0
        bedrooms := extractNumberJ (d.getF "numberOfRooms")
        bathrooms := extractNumberJ (d.getF "numberOfBathroomsTotal")
        propertyType := t
        squareFeet := some (extractNumberJ (d.getF "floorSize"))
        yearBuilt := some (extractNumberJ (d.getF "yearBuilt"))
        priceReduced := false
        originalPrice := none
        estimatedValue := none
        source := .zillow
        sourceUrl := url
        scrapedAt := now }

/-- extractZillowFromNextData (lines 205 to 234). A TypeError from
normalizePropertyType on a truthy non-string homeType is caught by the
functions own try/catch, returning null. -/
def extractZillowFromNextData (data : Json) : Option PartialScraped :=
  let props := data.getF "props"
  let pageProps := optGet props "pageProps"
  let initialData := optGet pageProps "initialData"
  let property := jsOrO (optGet pageProps "property") (optGet initialData "property")
  if !(jsTruthyO property) then none
  else
    let priceHistory := optGet property "priceHistory"
    let hasPriceReduction :=
      match priceHistory with
      | some (.arr xs) => decide (xs.length > 1)
      | _ => false
    match normTypeJ (jsOrO (optGet property "homeType") (optGet property "propertyType")) with
    | .error _ => none
    | .ok t =>
      some
        { address := some (jsOrD (jsOrO (optGet property "streetAddress")
            (optGet property "address")) (.str "Unknown"))
          listPrice := some (parsePriceJ (jsOrO (optGet property "price")
            (optGet property "listPrice")))
          daysOnMarket := some (extractNumberJ (jsOrO (optGet property "daysOnZillow")
            (optGet property "timeOnZillow")))
          bedrooms := some (extractNumberJ (jsOrO (optGet property "bedrooms")
            (optGet property "beds")))
          bathrooms := some (extractNumberJ (jsOrO (optGet property "bathrooms")
            (optGet property "baths")))
          propertyType := some t
          squareFeet := some (extractNumberJ (jsOrO (optGet property "livingArea")
            (optGet property "sqft")))
          yearBuilt := some (extractNumberJ (optGet property "yearBuilt"))
          priceReduced := some hasPriceReduction
          estimatedValue := some (parsePriceJ (optGet property "zestimate")) }

/-- The entry loop of extractZillowFromApollo (lines 236 to 262): keys
containing Property (case-sensitive includes) whose value is of object
type (objects and arrays; null excluded by the explicit check). A
TypeError escapes the loop to the catch of the enclosing function. -/
def extractZillowFromApolloLoop : List (String × Json) → Except Unit (Option PartialScraped)
  | [] => .ok none
  | (key, value) :: rest =>
    let isObjectType :=
      match value with
      | .obj _ => true
      | .arr _ => true
      | _ => false
    if containsCL ("Property".data) key.data && isObjectType then
      if jsTruthyO (value.getF "streetAddress") || jsTruthyO (value.getF "price") then
        match normTypeJ (value.getF "homeType") with
        | .error e => .error e
        | .ok t =>
          .ok (some
            { address := some (jsOrD (value.getF "streetAddress") (.str "Unknown"))
              listPrice := some (parsePriceJ (value.getF "price"))
              daysOnMarket := some (extractNumberJ (value.getF "daysOnZillow"))
              bedrooms := some (extractNumberJ (value.getF "bedrooms"))
              bathrooms := some (extractNumberJ (value.getF "bathrooms"))
              propertyType := some t
              squareFeet := some (extractNumberJ (value.getF "livingArea"))
              yearBuilt := some (extractNumberJ (value.getF "yearBuilt"))
              priceReduced := some false
              estimatedValue := some (parsePriceJ (value.getF "zestimate")) })
      else extractZillowFromApolloLoop rest
    else extractZillowFromApolloLoop rest

/-- extractZillowFromApollo (lines 236 to 262). Object.entries of a
non-object has no entry the loop body would act on (string index entries
have single-character values, excluded by the object-type check), so it
is modelled as the empty list. -/
def extractZillowFromApollo (data : Json) : Option PartialScraped :=
  let entries :=
    match data with
    | .obj fs => fs
    | _ => []
  match extractZillowFromApolloLoop entries with
  | .ok r => r
  | .error _ => none

/-- parseZillowInlineData (lines 264 to 283): a full record built
directly; a TypeError from normalizePropertyType on a truthy non-string
homeType makes it return null, which strategy 4 returns as the result of
parseZillowHtml. -/
def parseZillowInlineData (data : Json) (url now : String) : Option ScrapedPropertyData :=
  match normTypeJ (data.getF "homeType") with
  | .error _ => none
  | .ok t =>
    some
      { address := jsOrD (jsOrO (data.getF "streetAddress") (data.getF "address")) (.str "Unknown")
        listPrice := parsePriceJ (jsOrO (data.getF "price") (data.getF "listPrice"))
        daysOnMarket := extractNumberJ (jsOrO (data.getF "daysOnZillow") (data.getF "timeOnZillow"))
        bedrooms := extractNumberJ (jsOrO (data.getF "bedrooms") (data.getF "beds"))
        bathrooms := extractNumberJ (jsOrO (data.getF "bathrooms") (data.getF "baths"))
        propertyType := t
        squareFeet := some (extractNumberJ (jsOrO (data.getF "livingArea") (data.getF "sqft")))
        yearBuilt := some (extractNumberJ (data.getF "yearBuilt"))
        priceReduced := false
        originalPrice := none
        estimatedValue := none
        source := .zillow
        sourceUrl := url
        scrapedAt := now }

/-- parseZillowFromHtml (lines 285 to 325), the strategy-5 regex
fallback. A sqft run of only commas gives parseInt of an empty string,
NaN in JavaScript, modelled 0. -/
def parseZillowFromHtml (html url now : String) : Option ScrapedPropertyData :=
  let hl := html.data
  let price :=
    match priceMatchL hl with
    | some m => parsePriceStr (strOfL m)
    | none => 0
  let addressFromTitle :=
    match titleMatchL hl with
    | some t => strOfL (trimL (t.takeWhile (fun c => !(c == '|'))))
    | none => ""
  let bedsMatch := searchOpt (numKwAttempt ["bed".data, "br".data, "bedroom".data])
    (hl.length + 1) hl
  let bathsMatch := searchOpt (decKwAttempt ["bath".data, "ba".data, "bathroom".data])
    (hl.length + 1) hl
  let domMatch := searchOpt (domAttempt ["zillow".data, "market".data]) (hl.length + 1) hl
  let sqftMatch := searchOpt sqftAttempt (hl.length + 1) hl
  if decide (price = 0) && addressFromTitle.data.isEmpty then none
  else
    some
      { address := .str (if addressFromTitle.data.isEmpty then "Address from URL"
          else addressFromTitle)
        listPrice := price
        daysOnMarket :=
          match domMatch with
          | some m => (digitsToNatL m : Rat)
          | none => 0
        bedrooms :=
          match bedsMatch with
          | some m => (digitsToNatL m : Rat)
          | none => 0
        bathrooms :=
          match bathsMatch with
          | some m => parseFloatRun m
          | none => 0
        propertyType := .other
        squareFeet :=
          match sqftMatch with
          | some m => some ((digitsToNatL (m.filter (fun c => !(c == ','))) : Rat))
          | none => none
        yearBuilt := none
        priceReduced := ciContainsL ("price cut".data) hl || ciContainsL ("reduced".data) hl
        originalPrice := none
        estimatedValue := none
        source := .zillow
        sourceUrl := url
        scrapedAt := now }

/-- The candidate contents of strategy 1, shared verbatim by both sites
(lines 113 to 116 and 337 to 340): each g-flagged full match of the
ld+json script pattern, then the replace pass stripping the tags. The
body of a match contains no closing script tag (the lazy capture stops at
the first), so stripping the capture equals stripping the full match. -/
def ldJsonCandidates (html : String) : List String :=
  (scriptBlocks ("type=\"application/ld+json\"".data) (html.data.length + 1) html.data).map
    (fun c => strOfL (stripScriptTags (c.length + 1) c))

/-- The strategy-1 type check (line 119): one of the three Zillow
type-tag literals under strict string equality. -/
def zillowLdTypeOk (d : Json) : Bool :=
  isTypeStr d "SingleFamilyResidence" || isTypeStr d "Product" || isTypeStr d "RealEstateListing"

/-- The strategy-1 loop (lines 114 to 126): per candidate, JSON.parse
inside its own try (a syntax error advances to the next candidate); a
typed document returns parseZillowJsonLd from the whole function. The
outer Option marks whether the strategy fired; the inner Option is the
value it returned. -/
def tryZillowJsonLd (url now : String) : List String → Option (Option ScrapedPropertyData)
  | [] => none
  | c :: rest =>
    match jsonParse c with
    | some d =>
      if zillowLdTypeOk d then some (parseZillowJsonLd d url now)
      else tryZillowJsonLd url now rest
    | none => tryZillowJsonLd url now rest

def zillowJsonLdStep (html url now : String) : Option (Option ScrapedPropertyData) :=
  tryZillowJsonLd url now (ldJsonCandidates html)

/-- Strategy 2 (lines 129 to 140): first NEXT_DATA script block, parsed,
extracted, and completed only behind the hasRequiredData gate. -/
def zillowNextDataStep (html url now : String) : Option ScrapedPropertyData :=
  match firstScriptBlock ("id=\"__next_data__\"".data) (html.data.length + 1) html.data with
  | some content =>
    match jsonParse (strOfL content) with
    | some j => gatedComplete (extractZillowFromNextData j) .zillow url now
    | none => none
  | none => none

/-- Strategy 3 (lines 143 to 154): the apollo state blob, gated alike. -/
def zillowApolloStep (html url now : String) : Option ScrapedPropertyData :=
  match apolloCapture html with
  | some c =>
    match jsonParse c with
    | some j => gatedComplete (extractZillowFromApollo j) .zillow url now
    | none => none
  | none => none

/-- Strategy 4 (lines 157 to 165): when the capture parses, the value of
parseZillowInlineData is returned from parseZillowHtml even when null;
only a capture or parse failure falls through. -/
def zillowInlineStep (html url now : String) : Option (Option ScrapedPropertyData) :=
  match zillowInlineCapture html with
  | some c =>
    match jsonParse c with
    | some j => some (parseZillowInlineData j url now)
    | none => none
  | none => none

/-- parseZillowHtml (lines 110 to 174): the five-strategy cascade. The
outer try/catch of the source is unreachable (each throwing operation is
inside an inner try), so it is not modelled. -/
def parseZillowHtml (html url now : String) : Option ScrapedPropertyData :=
  match zillowJsonLdStep html url now with
  | some res => res
  | none =>
    match zillowNextDataStep html url now with
    | some r => some r
    | none =>
      match zillowApolloStep html url now with
      | some r => some r
      | none =>
        match zillowInlineStep html url now with
        | some res => res
        | none => parseZillowFromHtml html url now

/-! ## Redfin scraper (property-scraper.ts lines 331 to 526) -/

/-- parseRedfinJsonLd (lines 394 to 423). -/
def parseRedfinJsonLd (d : Json) (url now : String) : Option ScrapedPropertyData :=
  match normTypeJ (jsOrO (d.getF "@type") (d.getF "propertyType")) with
  | .error _ => none
  | .ok t =>
    let fullAddress := jsonLdAddress d
    let offers := d.getF "offers"
    some
      { address := .str (if fullAddress.data.isEmpty then "Unknown Address" else fullAddress)
        listPrice := parsePriceJ (jsOrO (optGet offers "price") (d.getF "price"))
        daysOnMarket := extractNumberJ (d.getF "daysOnMarket")
        bedrooms := extractNumberJ (jsOrO (d.getF "numberOfBedrooms") (d.getF "numberOfRooms"))
        bathrooms := extractNumberJ (jsOrO (d.getF "numberOfBathroomsTotal")
          (d.getF "numberOfFullBathrooms"))
        propertyType := t
        squareFeet := some (extractNumberJ (jsOrO (optGet (d.getF "floorSize") "value")
          (d.getF "floorSize")))
        yearBuilt := some (extractNumberJ (d.getF "yearBuilt"))
        priceReduced := false
        originalPrice := none
        estimatedValue := none
        source := .redfin
        sourceUrl := url
        scrapedAt := now }

/-- The strategy-1 type check of the Redfin loop (line 343). -/
def redfinLdTypeOk (d : Json) : Bool :=
  isTypeStr d "SingleFamilyResidence" || isTypeStr d "Product" || isTypeStr d "Residence"

/-- The per-item check of the Redfin array branch (line 349):
item[atType]?.includes(Residence) || item[atType] === Product. The ?.
guards only null and undefined; includes on a number, boolean or plain
object (truthy or not) throws a TypeError; on an array it is
strict-equality membership. -/
def redfinItemCheck (item : Json) : Except Unit Bool :=
  match item.getF "@type" with
  | none => .ok false
  | some .null => .ok false
  | some (.str s) => .ok (containsCL ("Residence".data) s.data || s == "Product")
  | some (.arr xs) =>
    .ok (xs.any (fun x =>
      match x with
      | .str s => s == "Residence"
      | _ => false))
  | some _ => .error ()

/-- The inner loop over a wrapped array (lines 347 to 353): the first
item passing the check is returned through parseRedfinJsonLd; a thrown
TypeError escapes to the per-candidate catch. -/
def redfinLdArrayLoop (url now : String) : List Json → Except Unit (Option (Option ScrapedPropertyData))
  | [] => .ok none
  | item :: rest =>
    match redfinItemCheck item with
    | .error e => .error e
    | .ok true => .ok (some (parseRedfinJsonLd item url now))
    | .ok false => redfinLdArrayLoop url now rest

/-- The Redfin strategy-1 loop (lines 336 to 358): parse each candidate
inside its own try; a typed document or a typed array item returns
parseRedfinJsonLd from the whole function; an error in a candidate
(syntax error or TypeError in the array branch) advances to the next
candidate. -/
def tryRedfinJsonLd (url now : String) : List String → Option (Option ScrapedPropertyData)
  | [] => none
  | c :: rest =>
    match jsonParse c with
    | some d =>
      if redfinLdTypeOk d then some (parseRedfinJsonLd d url now)
      else
        match d with
        | .arr items =>
          match redfinLdArrayLoop url now items with
          | .error _ => tryRedfinJsonLd url now rest
          | .ok (some res) => some res
          | .ok none => tryRedfinJsonLd url now rest
        | _ => tryRedfinJsonLd url now rest
    | none => tryRedfinJsonLd url now rest

def redfinJsonLdStep (html url now : String) : Option (Option ScrapedPropertyData) :=
  tryRedfinJsonLd url now (ldJsonCandidates html)

/-- The recursive findProperty of extractRedfinFromServerState (lines 428
to 439): a node with a truthy propertyId, listingId or streetAddress, or
the first hit in its object values and array elements. The source
recursion has no depth guard; jsFuel exceeds the depth of any value a
parsed document can have. -/
def findPropertyF : Nat → Json → Option Json
  | 0, _ => none
  | Nat.succ f, j =>
    if jsTruthyO (j.getF "propertyId") || jsTruthyO (j.getF "listingId")
        || jsTruthyO (j.getF "streetAddress") then some j
    else
      match j with
      | .obj fs => (fs.map Prod.snd).findSome? (findPropertyF f)
      | .arr xs => xs.findSome? (findPropertyF f)
      | _ => none

def findProperty (j : Json) : Option Json := findPropertyF jsFuel j

/-- extractRedfinFromServerState (lines 425 to 463). -/
def extractRedfinFromServerState (data : Json) : Option PartialScraped :=
  match findProperty data with
  | none => none
  | some property =>
    let priceInfo := property.getF "priceInfo"
    let avm := property.getF "avm"
    match normTypeJ (jsOrO (property.getF "propertyType") (property.getF "homeType")) with
    | .error _ => none
    | .ok t =>
      some
        { address := some (jsOrD (jsOrO (jsOrO (property.getF "streetAddress")
            (property.getF "address")) (property.getF "fullAddress")) (.str "Unknown"))
          listPrice := some (parsePriceJ (jsOrO (jsOrO (property.getF "price")
            (property.getF "listPrice")) (optGet priceInfo "amount")))
          daysOnMarket := some (extractNumberJ (jsOrO (jsOrO (property.getF "dom")
            (property.getF "daysOnMarket")) (property.getF "timeOnRedfin")))
          bedrooms := some (extractNumberJ (jsOrO (property.getF "beds")
            (property.getF "numBeds")))
          bathrooms := some (extractNumberJ (jsOrO (property.getF "baths")
            (property.getF "numBaths")))
          propertyType := some t
          squareFeet := some (extractNumberJ (jsOrO (jsOrO (property.getF "sqFt")
            (property.getF "sqft")) (property.getF "livingArea")))
          yearBuilt := some (extractNumberJ (property.getF "yearBuilt"))
          priceReduced := some (jsTruthyO (jsOrO (property.getF "priceDropInfo")
            (property.getF "isPriceDrop")))
          estimatedValue := some (parsePriceJ (jsOrO (optGet avm "price")
            (property.getF "redfinEstimate"))) }

/-- parseRedfinInlineData (lines 465 to 484). -/
def parseRedfinInlineData (data : Json) (url now : String) : Option ScrapedPropertyData :=
  match normTypeJ (data.getF "propertyType") with
  | .error _ => none
  | .ok t =>
    some
      { address := jsOrD (jsOrO (jsOrO (data.getF "streetAddress") (data.getF "address"))
          (data.getF "fullAddress")) (.str "Unknown")
        listPrice := parsePriceJ (jsOrO (data.getF "price") (data.getF "listPrice"))
        daysOnMarket := extractNumberJ (jsOrO (data.getF "dom") (data.getF "daysOnMarket"))
        bedrooms := extractNumberJ (jsOrO (data.getF "beds") (data.getF "numBeds"))
        bathrooms := extractNumberJ (jsOrO (data.getF "baths") (data.getF "numBaths"))
        propertyType := t
        squareFeet := some (extractNumberJ (jsOrO (data.getF "sqFt") (data.getF "sqft")))
        yearBuilt := some (extractNumberJ (data.getF "yearBuilt"))
        priceReduced := jsTruthyO (data.getF "priceDropInfo")
        originalPrice := none
        estimatedValue := none
        source := .redfin
        sourceUrl := url
        scrapedAt := now }

/-- parseRedfinFromHtml (lines 486 to 526), the regex fallback: as the
Zillow one, but the title is split at a pipe and then at a hyphen, the
days-on-market keyword is redfin, and the price-drop marker differs. -/
def parseRedfinFromHtml (html url now : String) : Option ScrapedPropertyData :=
  let hl := html.data
  let price :=
    match priceMatchL hl with
    | some m => parsePriceStr (strOfL m)
    | none => 0
  let addressFromTitle :=
    match titleMatchL hl with
    | some t =>
      strOfL (trimL ((t.takeWhile (fun c => !(c == '|'))).takeWhile (fun c => !(c == '-'))))
    | none => ""
  let bedsMatch := searchOpt (numKwAttempt ["bed".data, "br".data, "bedroom".data])
    (hl.length + 1) hl
  let bathsMatch := searchOpt (decKwAttempt ["bath".data, "ba".data, "bathroom".data])
    (hl.length + 1) hl
  let domMatch := searchOpt (domAttempt ["redfin".data]) (hl.length + 1) hl
  let sqftMatch := searchOpt sqftAttempt (hl.length + 1) hl
  if decide (price = 0) && addressFromTitle.data.isEmpty then none
  else
    some
      { address := .str (if addressFromTitle.data.isEmpty then "Address from URL"
          else addressFromTitle)
        listPrice := price
        daysOnMarket :=
          match domMatch with
          | some m => (digitsToNatL m : Rat)
          | none => 0
        bedrooms :=
          match bedsMatch with
          | some m => (digitsToNatL m : Rat)
          | none => 0
        bathrooms :=
          match bathsMatch with
          | some m => parseFloatRun m
          | none => 0
        propertyType := .other
        squareFeet :=
          match sqftMatch with
          | some m => some ((digitsToNatL (m.filter (fun c => !(c == ','))) : Rat))
          | none => none
        yearBuilt := none
        priceReduced := ciContainsL ("price drop".data) hl || ciContainsL ("reduced".data) hl
        originalPrice := none
        estimatedValue := none
        source := .redfin
        sourceUrl := url
        scrapedAt := now }

/-- Strategy 2 of Redfin (lines 361 to 372): the server-state blob,
completed only behind the hasRequiredData gate. -/
def redfinServerStateStep (html url now : String) : Option ScrapedPropertyData :=
  match serverStateCapture html with
  | some c =>
    match jsonParse c with
    | some j => gatedComplete (extractRedfinFromServerState j) .redfin url now
    | none => none
  | none => none

/-- Strategy 3 of Redfin (lines 375 to 383): a parsed capture returns
parseRedfinInlineData from parseRedfinHtml even when its value is null. -/
def redfinInlineStep (html url now : String) : Option (Option ScrapedPropertyData) :=
  match redfinInlineCapture html with
  | some c =>
    match jsonParse c with
    | some j => some (parseRedfinInlineData j url now)
    | none => none
  | none => none

/-- parseRedfinHtml (lines 334 to 392): the four-strategy cascade; the
outer try/catch is unreachable as for Zillow. -/
def parseRedfinHtml (html url now : String) : Option ScrapedPropertyData :=
  match redfinJsonLdStep html url now with
  | some res => res
  | none =>
    match redfinServerStateStep html url now with
    | some r => some r
    | none =>
      match redfinInlineStep html url now with
      | some res => res
      | none => parseRedfinFromHtml html url now

/-! ## Orchestrator (property-scraper.ts lines 532 to 575) -/

/-- The shape of a fetch response the orchestrator inspects: response.ok
and the body text. -/
structure FetchResponse where
  ok : Bool
  body : String

/-- scrapeProperty (lines 535 to 575): detectSource gates before the
fetch; the source then performs exactly one fetch, modelled as attempt 0
of the oracle; a non-ok status throws FETCH_FAILED; a null parse result
throws PARSE_FAILED; otherwise the non-null data is returned. The Except
carries the thrown error message; the Option inside ok preserves the
declared ScrapedPropertyData-or-null result type of the promise. -/
def scrapeProperty (url : String) (oracle : Nat → FetchResponse) (now : String) :
    Except String (Option ScrapedPropertyData) :=
  match detectSource url with
  | none => .error "UNSUPPORTED_SITE"
  | some source =>
    let response := oracle 0
    if !response.ok then .error "FETCH_FAILED"
    else
      let html := response.body
      let data : Option ScrapedPropertyData :=
        match source with
        | .zillow => parseZillowHtml html url now
        | .redfin => parseRedfinHtml html url now
      match data with
      | none => .error "PARSE_FAILED"
      | some d => .ok (some d)

/-- The closed error-code set of ScrapeErrorResponse (scraper-types.ts
lines 50 to 54): INVALID_URL, FETCH_FAILED, PARSE_FAILED and
UNSUPPORTED_SITE. -/
inductive ScrapeErrorCode where
  | invalidUrl
  | fetchFailed
  | parseFailed
  | unsupportedSite
deriving DecidableEq

/-- Whether a scrapeProperty result is a resolved null (the branch the
HTTP route guards against). -/
def isNullSuccess : Except String (Option ScrapedPropertyData) → Bool
  | .ok none => true
  | _ => false

/-- Replace the sourceUrl stamp; used to state that the URL reaches the
parse result only as that stamp. -/
def stampUrl (u : String) (r : ScrapedPropertyData) : ScrapedPropertyData :=
  { r with sourceUrl := u }

/-! ## The property-type classifier as the spec words it (for the
refinement claim about normalizePropertyType): keyword groups in fixed
priority, the first group one of whose keywords occurs case-insensitively
in the raw string wins, and no match yields other. -/

def classifyByGroups (lower : List Char) : List (List String × PropertyType) → PropertyType
  | [] => .other
  | (kws, t) :: rest =>
    if kws.any (fun k => containsCL k.data lower) then t
    else classifyByGroups lower rest

def specTypeGroups : List (List String × PropertyType) :=
  [(["single", "house", "detached"], .singleFamily),
   (["condo", "apartment"], .condo),
   (["town", "row"], .townhouse),
   (["multi", "duplex", "triplex"], .multiFamily)]

def claimClassify (s : String) : PropertyType :=
  classifyByGroups (s.data.map Char.toLower) specTypeGroups

/-! ## Concrete documents, URLs and oracles the claim theorems evaluate -/

/-- A document whose only recognized structure is a typed JSON-LD block
carrying neither an address nor a price. -/
def c1Html : String :=
  "<script type=\"application/ld+json\">\x7b\"@type\":\"Product\"\x7d</script>"

/-- What parseZillowHtml returns on c1Html: the sentinel address and a
zero price. -/
def c1Record : ScrapedPropertyData :=
  { address := .str "Unknown Address", listPrice := 0, daysOnMarket := 0, bedrooms := 0,
    bathrooms := 0, propertyType := .other, squareFeet := some 0, yearBuilt := some 0,
    priceReduced := false, originalPrice := none, estimatedValue := none,
    source := .zillow, sourceUrl := "u", scrapedAt := "t" }

def c3Url : String := "https://www.zillow.com/homedetails/42-Main-St/12345_zpid/"

/-- An oracle answering 403 (not ok) to every attempt. -/
def oracle403s : Nat → FetchResponse := fun _ => { ok := false, body := "403 Forbidden" }

/-- An oracle answering 403 to the first attempt and a clean parseable
page to every later one. -/
def oracle403then200 : Nat → FetchResponse := fun n =>
  match n with
  | 0 => { ok := false, body := "403 Forbidden" }
  | _ => { ok := true, body := "<title>42 Main St</title>$500,000" }

/-- A document where the JSON-LD strategy and the regex fallback both
produce gate-passing records with different prices. -/
def c4Html : String :=
  "<script type=\"application/ld+json\">\x7b\"@type\":\"Product\",\"address\":\x7b\"streetAddress\":\"1 Elm St\",\"addressLocality\":\"Boston\"\x7d,\"offers\":\x7b\"price\":\"500000\"\x7d\x7d</script><title>2 Oak Ave</title>$999,999"

/-- The strategy-1 output on c4Html. -/
def c4Record : ScrapedPropertyData :=
  { address := .str "1 Elm St, Boston", listPrice := 500000, daysOnMarket := 0, bedrooms := 0,
    bathrooms := 0, propertyType := .other, squareFeet := some 0, yearBuilt := some 0,
    priceReduced := false, originalPrice := none, estimatedValue := none,
    source := .zillow, sourceUrl := "u", scrapedAt := "t" }

/-- A document whose inline strategy parses but whose mapping throws a
TypeError (homeType is a number), while the regex fallback would match. -/
def c5Html : String := "zpid = \x7b\"homeType\":5\x7d;<title>1 Elm St</title>$500,000"

/-- What the regex fallback would return on c5Html. -/
def c5Record : ScrapedPropertyData :=
  { address := .str "1 Elm St", listPrice := 500000, daysOnMarket := 0, bedrooms := 0,
    bathrooms := 0, propertyType := .other, squareFeet := none, yearBuilt := none,
    priceReduced := false, originalPrice := none, estimatedValue := none,
    source := .zillow, sourceUrl := "u", scrapedAt := "t" }

/-- A document with one malformed JSON-LD block and regex-extractable
content after it. -/
def c5RecoveryHtml : String :=
  "<script type=\"application/ld+json\">not json</script><title>2 Oak Ave</title>$750,000"

def c8Url : String := "https://www.zillow.com/homedetails/123-Main-St-Cambridge-MA/12345_zpid/"

/-- An oracle answering ok with an empty body: reachable, nothing to parse. -/
def oracleEmptyOk : Nat → FetchResponse := fun _ => { ok := true, body := "" }

def c9UrlA : String := "https://www.zillow.com/homedetails/1-Elm-St/12345_zpid/"

def c9UrlB : String := "https://www.zillow.com/homedetails/1-Elm-St/99999_zpid/"

/-! ## Helper lemmas -/

lemma isPrefixCL_append_self (n b : List Char) : isPrefixCL n (n ++ b) = true := by
  induction n with
  | nil => rfl
  | cons a as ih => simp [isPrefixCL, ih]

lemma containsCL_nil_needle (h : List Char) : containsCL [] h = true := by
  cases h <;> simp [containsCL, isPrefixCL]

lemma containsCL_of_middle (n a b : List Char) : containsCL n (a ++ n ++ b) = true := by
  induction a with
  | nil =>
    cases n with
    | nil => simpa using containsCL_nil_needle b
    | cons c cs =>
      have h := isPrefixCL_append_self (c :: cs) b
      simp only [List.nil_append, List.cons_append] at h ⊢
      simp [containsCL, h]
  | cons x xs ih =>
    have ih' : containsCL n (xs ++ (n ++ b)) = true := by
      simpa [List.append_assoc] using ih
    simp [containsCL, ih']

lemma lower_zillow_lit : ("zillow.com".data).map Char.toLower = "zillow.com".data := by decide

lemma lower_redfin_lit : ("redfin.com".data).map Char.toLower = "redfin.com".data := by decide

lemma data_append3 (a b c : String) : (a ++ b ++ c).data = a.data ++ b.data ++ c.data := rfl

/-! ## Claim theorems -/

/-- Claim C2 (amended): normalizePropertyType performs case-insensitive
keyword matching in the fixed priority single-family (keywords single,
house, detached), then condo/apartment, then town/row, then
multi/duplex/triplex, first matching group winning, with other when no
keyword matches and for a missing string; because house - a single-family
keyword - occurs inside townhouse, a string containing both condo and
townhouse classifies as single-family, while condo beside a townhouse
keyword free of house (such as townhome) classifies as condo. -/
theorem claim_C2 :
    (∀ s : String, normalizePropertyTypeStr s = claimClassify s) ∧
    normTypeJ none = .ok PropertyType.other ∧
    normalizePropertyTypeStr "condo townhome" = PropertyType.condo := by
  refine ⟨fun s => ?_, rfl, by decide⟩
  simp [normalizePropertyTypeStr, claimClassify, specTypeGroups, classifyByGroups,
    List.any_cons, List.any_nil, Bool.or_assoc, Bool.or_false]

/-- Counterexample to claim C2 as stated: a string containing both condo
and townhouse classifies as single-family, not condo, because the
single-family keyword house occurs inside townhouse and the single-family
group is checked first. -/
theorem claim_C2_cex :
    normalizePropertyTypeStr "condo townhouse" = PropertyType.singleFamily ∧
    PropertyType.singleFamily ≠ PropertyType.condo := by
  exact ⟨by decide, by decide⟩

/-- Claim C6: detectSource is pure and total, returning one of zillow,
redfin or none by case-insensitive substring match against each domain
(zillow.com checked first); any URL embedding the domain - whatever
scheme, path depth, query or letter case - classifies to that site, any
other URL to none; and a none classification makes scrapeProperty fail
with UNSUPPORTED_SITE for every oracle, hence before any network access. -/
theorem claim_C6 :
    (∀ url : String,
      containsCL ("zillow.com".data) (url.data.map Char.toLower) = true →
      detectSource url = some Source.zillow) ∧
    (∀ url : String,
      containsCL ("zillow.com".data) (url.data.map Char.toLower) = false →
      containsCL ("redfin.com".data) (url.data.map Char.toLower) = true →
      detectSource url = some Source.redfin) ∧
    (∀ url : String,
      containsCL ("zillow.com".data) (url.data.map Char.toLower) = false →
      containsCL ("redfin.com".data) (url.data.map Char.toLower) = false →
      detectSource url = none) ∧
    (∀ pre post : String, detectSource (pre ++ "zillow.com" ++ post) = some Source.zillow) ∧
    (∀ pre post : String,
      containsCL ("zillow.com".data) ((pre ++ "redfin.com" ++ post).data.map Char.toLower) = false →
      detectSource (pre ++ "redfin.com" ++ post) = some Source.redfin) ∧
    (∀ (url : String) (oracle : Nat → FetchResponse) (now : String),
      detectSource url = none →
      scrapeProperty url oracle now = .error "UNSUPPORTED_SITE") := by
  refine ⟨fun url h => ?_, fun url h1 h2 => ?_, fun url h1 h2 => ?_,
    fun pre post => ?_, fun pre post h => ?_, fun url oracle now h => ?_⟩
  · simp [detectSource, h]
  · simp [detectSource, h1, h2]
  · simp [detectSource, h1, h2]
  · have hz : containsCL ("zillow.com".data)
        ((pre ++ "zillow.com" ++ post).data.map Char.toLower) = true := by
      rw [data_append3, List.map_append, List.map_append, lower_zillow_lit]
      exact containsCL_of_middle _ _ _
    simp only [detectSource]
    rw [hz]
    simp
  · have hr : containsCL ("redfin.com".data)
        ((pre ++ "redfin.com" ++ post).data.map Char.toLower) = true := by
      rw [data_append3, List.map_append, List.map_append, lower_redfin_lit]
      exact containsCL_of_middle _ _ _
    simp only [detectSource]
    rw [h, hr]
    simp
  · simp [scrapeProperty, h]

/-- Witness for claim C6 at concrete URLs: mixed case and a deep path
classify to zillow, a bare redfin URL to redfin, an unrelated domain to
none, and scrapeProperty short-circuits with UNSUPPORTED_SITE. -/
theorem claim_C6_wit :
    detectSource "https://WWW.Zillow.COM/a/b/c?q=1" = some Source.zillow ∧
    detectSource "http://redfin.com/stingray/do" = some Source.redfin ∧
    detectSource "https://example.com/nothing" = none ∧
    scrapeProperty "ftp://example.org/x" (fun _ => { ok := true, body := "" }) "t"
      = .error "UNSUPPORTED_SITE" := by
  exact ⟨claim_C6.1 _ (by decide), claim_C6.2.1 _ (by decide) (by decide),
    claim_C6.2.2.1 _ (by decide) (by decide),
    claim_C6.2.2.2.2.2 _ _ _ (claim_C6.2.2.1 _ (by decide) (by decide))⟩

/-- Claim C7: parsePrice strips all non-digit, non-decimal characters and
parses the remainder as an integer, with missing or unparsable input
yielding 0; it is idempotent (the inner call returns a number, which the
outer call returns unchanged), and on the concrete inputs of the claim:
1,250,000 dollars parses to 1250000, the empty string, null and undefined
to 0. -/
theorem claim_C7 :
    (∀ s : String,
      parsePriceJ (some (.num (parsePriceJ (some (.str s))))) = parsePriceJ (some (.str s))) ∧
    parsePriceJ (some (.str "$1,250,000")) = 1250000 ∧
    parsePriceJ (some (.str "")) = 0 ∧
    parsePriceJ (some .null) = 0 ∧
    parsePriceJ none = 0 := by
  exact ⟨fun s => rfl, by decide, by decide, by decide, by decide⟩

/-- Claim C10: whenever scrapeProperty resolves without throwing, the
resolved value is a non-null record: despite the declared
ScrapedPropertyData-or-null result type, a null parse result is converted
into a thrown PARSE_FAILED error, so the ok-with-null outcome never
occurs and the null-result branch of the HTTP route (route.ts lines 59
to 70) is unreachable. -/
theorem claim_C10 : ∀ (url : String) (oracle : Nat → FetchResponse) (now : String),
    isNullSuccess (scrapeProperty url oracle now) = false := by
  intro url oracle now
  cases h : detectSource url with
  | none => simp [scrapeProperty, h, isNullSuccess]
  | some src =>
    cases src with
    | zillow =>
      by_cases hok : (oracle 0).ok
      · cases hp : parseZillowHtml (oracle 0).body url now with
        | none => simp [scrapeProperty, h, hok, hp, isNullSuccess]
        | some d => simp [scrapeProperty, h, hok, hp, isNullSuccess]
      · simp [scrapeProperty, h, hok, isNullSuccess]
    | redfin =>
      by_cases hok : (oracle 0).ok
      · cases hp : parseRedfinHtml (oracle 0).body url now with
        | none => simp [scrapeProperty, h, hok, hp, isNullSuccess]
        | some d => simp [scrapeProperty, h, hok, hp, isNullSuccess]
      · simp [scrapeProperty, h, hok, isNullSuccess]

/-- Claim C1 (amended): the minimum-viable-data gate hasRequiredData is
enforced only where the code checks it - the gated completion used by the
NEXT_DATA and apollo strategies of Zillow and the server-state strategy
of Redfin: a partial record failing the gate is never completed there and
the cascade advances, while a passing one is completed with defaults; the
JSON-LD and inline-data strategies return their records with no gate at
all, so a typed JSON-LD block with neither address nor price is returned
as the sentinel address with a zero price (see the counterexample). -/
theorem claim_C1 : ∀ (p : PartialScraped) (src : Source) (url now : String),
    (hasRequiredData p = false → gatedComplete (some p) src url now = none) ∧
    (hasRequiredData p = true →
      gatedComplete (some p) src url now = some (completePropertyData p src url now)) := by
  intro p src url now
  constructor
  · intro h
    simp [gatedComplete, h]
  · intro h
    simp [gatedComplete, h]

/-- Witness for claim C1: the empty partial record fails the gate and is
not completed; a partial with a price passes and is completed. -/
theorem claim_C1_wit :
    hasRequiredData {} = false ∧
    gatedComplete (some {}) Source.zillow "u" "t" = none ∧
    hasRequiredData { listPrice := some 100 } = true ∧
    gatedComplete (some { listPrice := some 100 }) Source.zillow "u" "t"
      = some (completePropertyData { listPrice := some 100 } Source.zillow "u" "t") := by
  exact ⟨by decide, (claim_C1 {} Source.zillow "u" "t").1 (by decide), by decide,
    (claim_C1 { listPrice := some 100 } Source.zillow "u" "t").2 (by decide)⟩

/-- Counterexample to claim C1 as stated: on a document whose only
recognized structure is a typed JSON-LD block with neither address nor
price, parseZillowHtml returns a record whose address is the sentinel
Unknown Address and whose listPrice is 0 - a record the claimed gate
forbids - instead of advancing to the next strategy. -/
theorem claim_C1_cex :
    parseZillowHtml c1Html "u" "t" = some c1Record ∧
    c1Record.address = Json.str "Unknown Address" ∧
    c1Record.listPrice = 0 := by
  exact ⟨rfl, rfl, rfl⟩

/-- Claim C4: strategies are tried strictly in their listed order and the
first gate-passing result short-circuits all later strategies; whenever
the linked-data (JSON-LD) strategy fires with a record, parseZillowHtml
returns exactly that record, whatever any later strategy - in particular
the final regex fallback - would have produced. -/
theorem claim_C4 : ∀ (html url now : String) (r : ScrapedPropertyData),
    zillowJsonLdStep html url now = some (some r) →
    parseZillowHtml html url now = some r := by
  intro html url now r h
  simp [parseZillowHtml, h]

/-- Witness for claim C4: on a document where the JSON-LD strategy yields
a 500000 price and the regex fallback would yield 999999, the pipeline
returns the JSON-LD record. -/
theorem claim_C4_wit :
    zillowJsonLdStep c4Html "u" "t" = some (some c4Record) ∧
    parseZillowHtml c4Html "u" "t" = some c4Record ∧
    c4Record.listPrice = 500000 ∧
    (parseZillowFromHtml c4Html "u" "t").map ScrapedPropertyData.listPrice = some 999999 := by
  exact ⟨rfl, claim_C4 c4Html "u" "t" c4Record rfl, rfl, rfl⟩

/-- Claim C5 (amended): a JSON parse error inside a strategy is recovered
locally as strategy-returned-no-match - every JSON-LD candidate that
fails to parse is skipped, and when the first four strategies produce no
match the regex fallback runs; but a TypeError inside the mapping of the
inline strategy is converted to a null result of the whole pipeline
rather than advancing the cascade (see the counterexample), and the parse
functions never throw. -/
theorem claim_C5 :
    (∀ (url now : String) (cs : List String),
      (∀ c ∈ cs, jsonParse c = none) → tryZillowJsonLd url now cs = none) ∧
    (∀ html url now : String,
      zillowJsonLdStep html url now = none →
      zillowNextDataStep html url now = none →
      zillowApolloStep html url now = none →
      zillowInlineStep html url now = none →
      parseZillowHtml html url now = parseZillowFromHtml html url now) := by
  constructor
  · intro url now cs h
    induction cs with
    | nil => rfl
    | cons c rest ih =>
      have hc : jsonParse c = none := h c (List.mem_cons_self c rest)
      have hrest : ∀ x ∈ rest, jsonParse x = none := fun x hx => h x (List.mem_cons_of_mem c hx)
      simp [tryZillowJsonLd, hc, ih hrest]
  · intro html url now h1 h2 h3 h4
    simp [parseZillowHtml, h1, h2, h3, h4]

/-- Witness for claim C5: a document with one malformed JSON-LD block
falls through every structured strategy and the regex fallback returns
its record. -/
theorem claim_C5_wit :
    tryZillowJsonLd "u" "t" (ldJsonCandidates c5RecoveryHtml) = none ∧
    parseZillowHtml c5RecoveryHtml "u" "t" = parseZillowFromHtml c5RecoveryHtml "u" "t" ∧
    (parseZillowHtml c5RecoveryHtml "u" "t").map ScrapedPropertyData.listPrice = some 750000 := by
  refine ⟨claim_C5.1 "u" "t" _ ?_, claim_C5.2 c5RecoveryHtml "u" "t" rfl rfl rfl rfl, rfl⟩
  intro c hc
  rw [show ldJsonCandidates c5RecoveryHtml = ["not json"] from rfl] at hc
  simp only [List.mem_singleton] at hc
  subst hc
  rfl

/-- Counterexample to claim C5 as stated: on a document whose inline
strategy parses but whose field mapping hits a type mismatch (homeType is
a number, so toLowerCase throws), parseZillowHtml returns null without
running the next strategy, although the regex fallback would have
produced a gate-passing record. -/
theorem claim_C5_cex :
    parseZillowHtml c5Html "u" "t" = none ∧
    parseZillowFromHtml c5Html "u" "t" = some c5Record ∧
    c5Record.address = Json.str "1 Elm St" ∧
    c5Record.listPrice = 500000 := by
  exact ⟨rfl, rfl, rfl, rfl⟩

/-- Claim C3 (amended): the fetch layer makes exactly one attempt with a
fixed header set; on a supported URL any non-ok response - a 403
included - surfaces as the FETCH_FAILED error, and the closed error-code
set of the API (INVALID_URL, FETCH_FAILED, PARSE_FAILED,
UNSUPPORTED_SITE) has no Blocked member; there is no retry, so a 403
followed by a clean 200 still fails. -/
theorem claim_C3 :
    (∀ (url : String) (oracle : Nat → FetchResponse) (now : String) (src : Source),
      detectSource url = some src → (oracle 0).ok = false →
      scrapeProperty url oracle now = .error "FETCH_FAILED") ∧
    (∀ e : ScrapeErrorCode,
      e = .invalidUrl ∨ e = .fetchFailed ∨ e = .parseFailed ∨ e = .unsupportedSite) := by
  constructor
  · intro url oracle now src h hok
    simp [scrapeProperty, h, hok]
  · intro e
    cases e
    · exact Or.inl rfl
    · exact Or.inr (Or.inl rfl)
    · exact Or.inr (Or.inr (Or.inl rfl))
    · exact Or.inr (Or.inr (Or.inr rfl))

/-- Witness for claim C3 at a concrete supported URL and a 403 oracle. -/
theorem claim_C3_wit :
    scrapeProperty "https://zillow.com/homes/" oracle403s "t" = .error "FETCH_FAILED" := by
  exact claim_C3.1 "https://zillow.com/homes/" oracle403s "t" Source.zillow (by decide) rfl

/-- Counterexample to claim C3 as stated: three consecutive 403s yield
FETCH_FAILED, not a distinct Blocked error; and a 403 followed by a 200
whose body parses cleanly also yields FETCH_FAILED, because the second
response is never requested - there is no retry budget. -/
theorem claim_C3_cex :
    scrapeProperty c3Url oracle403s "t" = .error "FETCH_FAILED" ∧
    scrapeProperty c3Url oracle403then200 "t" = .error "FETCH_FAILED" ∧
    (oracle403then200 1).ok = true ∧
    (parseZillowHtml (oracle403then200 1).body c3Url "t").map ScrapedPropertyData.listPrice
      = some 500000 ∧
    (Except.error "FETCH_FAILED" : Except String (Option ScrapedPropertyData))
      ≠ Except.error "Blocked" := by
  exact ⟨rfl, rfl, rfl, rfl, by simp⟩

/-- Claim C8 (amended): there is no URL-derived degraded fallback: for a
Zillow URL whose document is fetched (ok) but defeats every parse
strategy, scrapeProperty throws PARSE_FAILED instead of returning a
record carrying an address derived from the URL path segments. -/
theorem claim_C8 : ∀ (url : String) (oracle : Nat → FetchResponse) (now : String),
    detectSource url = some Source.zillow → (oracle 0).ok = true →
    parseZillowHtml (oracle 0).body url now = none →
    scrapeProperty url oracle now = .error "PARSE_FAILED" := by
  intro url oracle now h hok hp
  simp [scrapeProperty, h, hok, hp]

/-- Witness for claim C8: the homedetails URL of the claim with a
reachable but empty document surfaces PARSE_FAILED. -/
theorem claim_C8_wit :
    scrapeProperty c8Url oracleEmptyOk "t" = .error "PARSE_FAILED" := by
  exact claim_C8 c8Url oracleEmptyOk "t" (by decide) rfl rfl

/-- Counterexample to claim C8 as stated: on the exact URL of the claim
with no parseable document, the pipeline fails with PARSE_FAILED and
resolves to no record at all - in particular not to a degraded record
with address 123 Main St Cambridge Ma. -/
theorem claim_C8_cex :
    scrapeProperty c8Url oracleEmptyOk "t" = .error "PARSE_FAILED" ∧
    (∀ d : Option ScrapedPropertyData, scrapeProperty c8Url oracleEmptyOk "t" ≠ .ok d) := by
  refine ⟨rfl, ?_⟩
  intro d h
  rw [show scrapeProperty c8Url oracleEmptyOk "t" = .error "PARSE_FAILED" from rfl] at h
  exact Except.noConfusion h

/-! ## The URL reaches the Zillow parse result only as the sourceUrl
stamp: one lemma per record-producing function. -/

lemma completePropertyData_stamp (p : PartialScraped) (src : Source) (u now : String) :
    completePropertyData p src u now = stampUrl u (completePropertyData p src "" now) := rfl

lemma gatedComplete_stamp (p? : Option PartialScraped) (src : Source) (u now : String) :
    gatedComplete p? src u now = (gatedComplete p? src "" now).map (stampUrl u) := by
  cases p? with
  | none => rfl
  | some p =>
    by_cases h : hasRequiredData p
    · simp only [gatedComplete, h, if_pos, Option.map]
      exact congrArg some (completePropertyData_stamp p src u now)
    · simp [gatedComplete, h]

lemma parseZillowJsonLd_stamp (d : Json) (u now : String) :
    parseZillowJsonLd d u now = (parseZillowJsonLd d "" now).map (stampUrl u) := by
  cases h : normTypeJ (d.getF "@type") with
  | error e => simp [parseZillowJsonLd, h]
  | ok t => simp [parseZillowJsonLd, h, stampUrl]

lemma tryZillowJsonLd_stamp (u now : String) (cs : List String) :
    tryZillowJsonLd u now cs = (tryZillowJsonLd "" now cs).map (Option.map (stampUrl u)) := by
  induction cs with
  | nil => rfl
  | cons c rest ih =>
    cases hj : jsonParse c with
    | none => simp [tryZillowJsonLd, hj, ih]
    | some d =>
      by_cases ht : zillowLdTypeOk d
      · simp only [tryZillowJsonLd, hj, ht, if_pos, Option.map]
        exact congrArg some (parseZillowJsonLd_stamp d u now)
      · simp [tryZillowJsonLd, hj, ht, ih]

lemma zillowJsonLdStep_stamp (html u now : String) :
    zillowJsonLdStep html u now
      = (zillowJsonLdStep html "" now).map (Option.map (stampUrl u)) :=
  tryZillowJsonLd_stamp u now (ldJsonCandidates html)

lemma zillowNextDataStep_stamp (html u now : String) :
    zillowNextDataStep html u now = (zillowNextDataStep html "" now).map (stampUrl u) := by
  unfold zillowNextDataStep
  cases h1 : firstScriptBlock ("id=\"__next_data__\"".data) (html.data.length + 1) html.data with
  | none => rfl
  | some content =>
    dsimp only
    cases h2 : jsonParse (strOfL content) with
    | none => rfl
    | some j => exact gatedComplete_stamp _ _ _ _

lemma zillowApolloStep_stamp (html u now : String) :
    zillowApolloStep html u now = (zillowApolloStep html "" now).map (stampUrl u) := by
  unfold zillowApolloStep
  cases h1 : apolloCapture html with
  | none => rfl
  | some c =>
    dsimp only
    cases h2 : jsonParse c with
    | none => rfl
    | some j => exact gatedComplete_stamp _ _ _ _

lemma parseZillowInlineData_stamp (j : Json) (u now : String) :
    parseZillowInlineData j u now = (parseZillowInlineData j "" now).map (stampUrl u) := by
  cases h : normTypeJ (j.getF "homeType") with
  | error e => simp [parseZillowInlineData, h]
  | ok t => simp [parseZillowInlineData, h, stampUrl]

lemma zillowInlineStep_stamp (html u now : String) :
    zillowInlineStep html u now
      = (zillowInlineStep html "" now).map (Option.map (stampUrl u)) := by
  unfold zillowInlineStep
  cases h1 : zillowInlineCapture html with
  | none => rfl
  | some c =>
    dsimp only
    cases h2 : jsonParse c with
    | none => rfl
    | some j => exact congrArg some (parseZillowInlineData_stamp j u now)

lemma parseZillowFromHtml_stamp (html u now : String) :
    parseZillowFromHtml html u now = (parseZillowFromHtml html "" now).map (stampUrl u) := by
  simp only [parseZillowFromHtml]
  split <;> rfl

lemma parseZillowHtml_stamp (html u now : String) :
    parseZillowHtml html u now = (parseZillowHtml html "" now).map (stampUrl u) := by
  cases h1 : zillowJsonLdStep html "" now with
  | some res =>
    have l1 : zillowJsonLdStep html u now = some (Option.map (stampUrl u) res) := by
      rw [zillowJsonLdStep_stamp, h1]; rfl
    simp [parseZillowHtml, l1, h1]
  | none =>
    have l1 : zillowJsonLdStep html u now = none := by
      rw [zillowJsonLdStep_stamp, h1]; rfl
    cases h2 : zillowNextDataStep html "" now with
    | some r =>
      have l2 : zillowNextDataStep html u now = some (stampUrl u r) := by
        rw [zillowNextDataStep_stamp, h2]; rfl
      simp [parseZillowHtml, l1, h1, l2, h2]
    | none =>
      have l2 : zillowNextDataStep html u now = none := by
        rw [zillowNextDataStep_stamp, h2]; rfl
      cases h3 : zillowApolloStep html "" now with
      | some r =>
        have l3 : zillowApolloStep html u now = some (stampUrl u r) := by
          rw [zillowApolloStep_stamp, h3]; rfl
        simp [parseZillowHtml, l1, h1, l2, h2, l3, h3]
      | none =>
        have l3 : zillowApolloStep html u now = none := by
          rw [zillowApolloStep_stamp, h3]; rfl
        cases h4 : zillowInlineStep html "" now with
        | some res =>
          have l4 : zillowInlineStep html u now = some (Option.map (stampUrl u) res) := by
            rw [zillowInlineStep_stamp, h4]; rfl
          simp [parseZillowHtml, l1, h1, l2, h2, l3, h3, l4, h4]
        | none =>
          have l4 : zillowInlineStep html u now = none := by
            rw [zillowInlineStep_stamp, h4]; rfl
          simp only [parseZillowHtml, l1, h1, l2, h2, l3, h3, l4, h4]
          exact parseZillowFromHtml_stamp html u now

/-- Claim C9 (amended): scrapeProperty performs no identifier extraction
at all - the URL influences the Zillow parse result only as the verbatim
sourceUrl stamp, so two URLs differing in their embedded listing
identifier produce results equal up to that stamp. -/
theorem claim_C9 :
    (∀ html u now : String,
      parseZillowHtml html u now = (parseZillowHtml html "" now).map (stampUrl u)) ∧
    (∀ html u1 u2 now : String,
      (parseZillowHtml html u1 now).map (stampUrl "")
        = (parseZillowHtml html u2 now).map (stampUrl "")) := by
  constructor
  · exact parseZillowHtml_stamp
  · intro html u1 u2 now
    rw [parseZillowHtml_stamp html u1 now, parseZillowHtml_stamp html u2 now,
      Option.map_map, Option.map_map]
    have e : (stampUrl "" ∘ stampUrl u1) = (stampUrl "" ∘ stampUrl u2) := by
      funext r
      rfl
    rw [e]

/-- Counterexample to claim C9 as stated: the two homedetails URLs of the
claim, one with identifier 12345 and one with 99999, are treated
identically - both fail with PARSE_FAILED on an unparseable document, and
no identifier is extracted or used. -/
theorem claim_C9_cex :
    scrapeProperty c9UrlA oracleEmptyOk "t" = .error "PARSE_FAILED" ∧
    scrapeProperty c9UrlB oracleEmptyOk "t" = .error "PARSE_FAILED" := by
  exact ⟨rfl, rfl⟩

end Scraper
